import Mathlib

/-!
Shallow embedding of `DeviceAdapters/Acquire/AcquireCamera.cpp` and
`DeviceAdapters/ASITiger/ASIBase.h` (go2scope/mmCoreAndDevices).

Bytes are modelled as `Nat`, byte buffers as `List Nat`.  A video frame in the
ring buffers of the `cpx` frame source is a header of `sizeof(VideoFrame)`
bytes followed by a pixel payload; `VideoFrame::bytes_of_frame` is the total
size of the record.  We model a frame by its payload alone and keep the header
size `hs` abstract, so `bytes_of_frame = hs + payload.length`.  A `Span` is
the `[begin, end)` window of frames visible from one `cpx_map_read` call.
-/

namespace AcquireCam

abbrev Byte := Nat

/-- A frame's pixel payload (`VideoFrame::data`). -/
abbrev Frame := List Byte

/-- The frames visible in one mapped window `[begin, end)`. -/
abbrev Span := List Frame

/-- The pointer difference `end_pointer - begin_pointer` of a mapped window: the total size in bytes
of all frames visible in the span, each counting its header. -/
def spanBytes (hs : Nat) (sp : Span) : Nat :=
  (sp.map (fun f => hs + f.length)).sum

/-- The effect of `memcpy(dst + off, src, src.length)` on byte lists. -/
def writeBytes (dst : List Byte) (off : Nat) (src : List Byte) : List Byte :=
  dst.take off ++ src ++ dst.drop (off + src.length)

/-- Modelled from the spec: the `ImgBuffer` class of MMDevice is not under
`src/`; per the spec it is "a simple width×height×depth pixel container with
resize and raw read/write pixel access". -/
structure Img where
  width : Nat
  height : Nat
  depth : Nat
  pix : List Byte
deriving DecidableEq, Repr

/-- The effect of `ImgBuffer::Resize(w, h, d)`: a fresh `w*h*d`-byte pixel container. -/
def Img.resize (w h d : Nat) : Img :=
  ⟨w, h, d, List.replicate (w * h * d) 0⟩

def emptyImg : Img := ⟨0, 0, 0, []⟩

/-- The result sequence of the successive `cpx_map_read` polls of one stream:
element `i` is the span the ring buffer exposes on poll attempt `i+1`.  The
C++ loop polls once, then re-polls (with a sleep) while the window is empty;
a finite list models the attempts made before (and including) the first
non-empty window — an all-empty list models a wait that never ends. -/
def firstNonEmpty : List Span → Option Span
  | [] => none
  | sp :: rest => if sp.isEmpty then firstNonEmpty rest else some sp

/-- Function `AcquireCamera::readFrame(stream, props)` acting on the image buffer of
its stream.  Polls until the mapped window is non-empty, copies
`beg->bytes_of_frame - sizeof(VideoFrame)` bytes (the first frame's payload)
to offset 0 of the stream's image buffer, and unmaps
`consumed_bytes(beg, end) = end - beg` bytes.  Returns the updated buffer
and the byte count passed to `cpx_unmap_read`, or `none` when every poll in
the given attempt list came back empty. -/
def readFrame (hs : Nat) (img : List Byte) (polls : List Span) :
    Option (List Byte × Nat) :=
  match firstNonEmpty polls with
  | none => none
  | some sp =>
    match sp.head? with
    | none => none
    | some f => some (writeBytes img 0 f, spanBytes hs sp)

/-- Constant `DEMO_IMAGE_WIDTH`. -/
def DEMO_IMAGE_WIDTH : Nat := 640

/-- Constant `DEMO_IMAGE_HEIGHT`. -/
def DEMO_IMAGE_HEIGHT : Nat := 480

/-- The adapter state the claims touch: the `demo` and `multiChannel` flags
and the `imgs` vector of image buffers. -/
structure CamState where
  demo : Bool
  multiChannel : Bool
  imgs : List Img
deriving DecidableEq, Repr

/-- Function `AcquireCamera::setupBuffers()`: in demo mode, clear `imgs` and allocate
two `640×480×1` buffers (multi-channel) or one `640×960×1` buffer
(single-channel); outside demo mode the body is a TODO and does nothing. -/
def setupBuffers (s : CamState) : CamState :=
  if s.demo then
    if s.multiChannel then
      { s with imgs := [Img.resize DEMO_IMAGE_WIDTH DEMO_IMAGE_HEIGHT 1,
                        Img.resize DEMO_IMAGE_WIDTH DEMO_IMAGE_HEIGHT 1] }
    else
      { s with imgs := [Img.resize DEMO_IMAGE_WIDTH (DEMO_IMAGE_HEIGHT * 2) 1] }
  else
    s

/-- Modelled from the spec: the property-value constants `g_prop_Mode_Multi`
and `g_prop_Mode_Single` live in `AcquireCamera.h`, which is not under
`src/`; the spec fixes the two legal values of the mode property as
"Multi"/"Single". -/
def g_prop_Mode_Multi : String := "Multi"

def g_prop_Mode_Single : String := "Single"

/-- The `MM::AfterSet` branch of `AcquireCamera::OnImageMode`: read the mode
string, set `multiChannel` true exactly when it compares equal to the multi
value, then call `setupBuffers`. -/
def onImageModeAfterSet (mode : String) (s : CamState) : CamState :=
  setupBuffers { s with multiChannel := mode == g_prop_Mode_Multi }

/-- The dimension-and-count view of the image buffers. -/
def imgShapes (s : CamState) : List (Nat × Nat × Nat) :=
  s.imgs.map (fun i => (i.width, i.height, i.depth))

/-- The part of `AcquireCamera::Initialize` deciding buffer setup: the demo
flag is read from the `Demo` property (created read-only with value `"1"` in
the constructor, so it always reads back 1), `multiChannel` defaults to true,
and `setupBuffers` runs. -/
def initCam (demoVal : Int) : CamState :=
  setupBuffers { demo := demoVal == 1, multiChannel := true, imgs := [] }

/-- The value the read-only `Demo` property always yields, as created by the
`AcquireCamera` constructor. -/
def demoPropValue : Int := 1

/-! Exposure.  `SetExposure(e)` stores `e * 1000` into
`props.video[0].camera.settings.exposure_time_us` (and copies it to
`video[1]`); `GetExposure()` returns `video[0]`'s value divided by `1000.0`.
The stored quantity is a C `float`; the claims restrict to values exact under
the scaling, for which float arithmetic coincides with exact rational
arithmetic, so the field is modelled as `ℚ`. -/

structure CpxVideoSettings where
  exposure_time_us : ℚ
deriving DecidableEq, Repr

structure CpxProps where
  video0 : CpxVideoSettings
  video1 : CpxVideoSettings
deriving DecidableEq, Repr

/-- Function `AcquireCamera::SetExposure` on the configuration it pushes back. -/
def setExposure (exposure : ℚ) (_p : CpxProps) : CpxProps :=
  let us := exposure * 1000
  { video0 := ⟨us⟩, video1 := ⟨us⟩ }

/-- Function `AcquireCamera::GetExposure` on the configuration it fetches. -/
def getExposure (p : CpxProps) : ℚ :=
  p.video0.exposure_time_us / 1000

/-! Dual-stream composite read.  `readFrames` performs the stream-0 poll
loop, copy and unmap, then the stream-1 poll loop, copy and unmap, writing
stream 1 either into `imgs[1]` (multi-channel) or at byte offset
`imgs[0].Width()*imgs[0].Height()*imgs[0].Depth()/2` of `imgs[0]`
(single-channel).  To settle the temporal claim it also emits the ordered
trace of ring-buffer interactions. -/

/-- One observable interaction with a stream's ring buffer. -/
inductive Ev where
  | poll (stream : Nat) (empty : Bool)
  | copy (stream : Nat) (off nbytes : Nat)
  | unmap (stream : Nat) (nbytes : Nat)
deriving DecidableEq, Repr

/-- The stream a ring-buffer interaction touches. -/
def Ev.stream : Ev → Nat
  | .poll s _ => s
  | .copy s _ _ => s
  | .unmap s _ => s

def Ev.isCopy : Ev → Bool
  | .copy _ _ _ => true
  | _ => false

def Ev.isUnmap : Ev → Bool
  | .unmap _ _ => true
  | _ => false

/-- The `cpx_map_read` / `while (beg == end)` poll loop of `readFrames` on
one stream: returns the first non-empty span together with the trace of poll
events it produced, or `none` when every poll in the list came back empty. -/
def pollLoop (stream : Nat) : List Span → Option (Span × List Ev)
  | [] => none
  | sp :: rest =>
    if sp.isEmpty then
      match pollLoop stream rest with
      | none => none
      | some (s, t) => some (s, Ev.poll stream true :: t)
    else
      some (sp, [Ev.poll stream false])

/-- Function `AcquireCamera::readFrames(props)`: read one frame from stream 0 into
`imgs[0]`, unmap the whole visible span, then read one frame from stream 1
into `imgs[1]` (multi-channel) or into the second half of `imgs[0]`
(single-channel), and unmap its span.  Returns the updated buffers and the
ordered interaction trace, or `none` when a poll loop never saw data. -/
def readFrames (hs : Nat) (mc : Bool) (imgs : List Img)
    (polls0 polls1 : List Span) : Option (List Img × List Ev) :=
  match pollLoop 0 polls0 with
  | none => none
  | some (sp0, t0) =>
    match sp0.head? with
    | none => none
    | some f0 =>
      let i0 := imgs.getD 0 emptyImg
      let imgsA := imgs.set 0 { i0 with pix := writeBytes i0.pix 0 f0 }
      let n0 := spanBytes hs sp0
      match pollLoop 1 polls1 with
      | none => none
      | some (sp1, t1) =>
        match sp1.head? with
        | none => none
        | some f1 =>
          let b0 := imgsA.getD 0 emptyImg
          let off1 := if mc then 0 else b0.width * b0.height * b0.depth / 2
          let imgsB :=
            if mc then
              let i1 := imgsA.getD 1 emptyImg
              imgsA.set 1 { i1 with pix := writeBytes i1.pix 0 f1 }
            else
              imgsA.set 0 { b0 with pix := writeBytes b0.pix off1 f1 }
          let n1 := spanBytes hs sp1
          some (imgsB,
            t0 ++ [Ev.copy 0 0 f0.length, Ev.unmap 0 n0] ++
            t1 ++ [Ev.copy 1 off1 f1.length, Ev.unmap 1 n1])

/-! SnapImage orchestration.  `SnapImage` configures the two simulated
cameras and trash storage sinks, pushes the configuration, starts the frame
source, runs `readFrames`, stops the frame source and returns `DEVICE_OK`.
The branching the error-handling claim is about depends on the status codes
`cpx_configure` and `cpx_start` return. -/

/-- Status code `CpxStatus_Ok` of the cpx SDK. -/
def CpxStatus_Ok : Int := 0

/-- Modelled from the spec: `DEVICE_OK` comes from `MMDeviceConstants.h`,
which is not under `src/`; it is the host's success code, value 0. -/
def DEVICE_OK : Int := 0

/-- Modelled from the spec: `ERR_CPX_CONFIURE_FAILED` is declared in
`AcquireCamera.h`, which is not under `src/`; the spec only requires it to be
a distinct error condition, so any value different from `DEVICE_OK` is
faithful. -/
def ERR_CPX_CONFIURE_FAILED : Int := 102

/-- What `SnapImage` did and how it ended. -/
inductive SnapResult where
  /-- returned the given host status code -/
  | ret (code : Int)
  /-- threw a C++ exception with the given message -/
  | thrown (msg : String)
deriving DecidableEq, Repr

/-- Whether `readFrames` was entered and whether `cpx_stop` ran. -/
structure SnapTrace where
  readCalled : Bool
  stopCalled : Bool
deriving DecidableEq, Repr

/-- Function `AcquireCamera::SnapImage` as a function of the status codes returned by
`cpx_configure` and `cpx_start` and of the (ignored) result of `readFrames`:
a configure failure logs and returns `ERR_CPX_CONFIURE_FAILED` before
starting; a start failure throws `std::exception("cpx_start failed")`; when
both succeed, `readFrames` runs, `cpx_stop` runs unconditionally afterwards,
and `DEVICE_OK` is returned. -/
def snapImage (cfgRet startRet _readRet : Int) : SnapTrace × SnapResult :=
  if cfgRet ≠ CpxStatus_Ok then
    (⟨false, false⟩, .ret ERR_CPX_CONFIURE_FAILED)
  else if startRet ≠ CpxStatus_Ok then
    (⟨false, false⟩, .thrown "cpx_start failed")
  else
    (⟨true, true⟩, .ret DEVICE_OK)

/-! Per-channel accessors.  `imgs` is a `std::vector`, so `imgs.size() - 1`
is `size_t` arithmetic: it wraps modulo `2^64` when the vector is empty. -/

/-- The expression `imgs.size() - 1` in `size_t` arithmetic. -/
def sizeMinusOne (n : Nat) : Nat := (n + (2 ^ 64 - 1)) % 2 ^ 64

/-- Modelled from the spec: `DEVICE_NONEXISTENT_CHANNEL` comes from
`MMDeviceConstants.h`, which is not under `src/`; it only needs to be a
status code distinct from `DEVICE_OK`. -/
def DEVICE_NONEXISTENT_CHANNEL : Int := 37

/-- Function `AcquireCamera::GetImageBuffer(channel)`: `nullptr` (`none`) when
`channel > imgs.size() - 1`, otherwise the pixels of `imgs[channel]`. -/
def getImageBufferCh (s : CamState) (channel : Nat) : Option (List Byte) :=
  if channel > sizeMinusOne s.imgs.length then none
  else (s.imgs.get? channel).map Img.pix

/-- Function `AcquireCamera::GetChannelName(channel, name)`: returns
`DEVICE_NONEXISTENT_CHANNEL` without writing `name` when
`channel > imgs.size() - 1`, otherwise writes "Camera-1"/"Camera-2" and
returns `DEVICE_OK`. -/
def getChannelName (s : CamState) (channel : Nat) : Int × Option String :=
  if channel > sizeMinusOne s.imgs.length then (DEVICE_NONEXISTENT_CHANNEL, none)
  else (DEVICE_OK, some (if channel == 0 then "Camera-1" else "Camera-2"))

end AcquireCam

/-! Shallow embedding of `ASIBase<TDeviceBase, UConcreteDevice>` from
`DeviceAdapters/ASITiger/ASIBase.h`, restricted to the property store the
name claims touch. -/

namespace ASITiger

/-- Modelled from the spec: `MM::g_Keyword_Name` comes from the MMDevice
layer, which is not under `src/`; it is the fixed key of the name property. -/
def g_Keyword_Name : String := "Name"

/-- The slice of device state `ASIBase::GetName` reads: the property table
(key-value pairs created by `CreateProperty`). -/
structure ASIDevice where
  props : List (String × String)
deriving DecidableEq, Repr

/-- Predicate `HasProperty(key)`. -/
def hasProperty (d : ASIDevice) (key : String) : Bool :=
  (d.props.lookup key).isSome

/-- The `ASIBase(const char* name)` constructor's effect on the property
table: `CreateProperty(MM::g_Keyword_Name, name, ...)` runs exactly when
`strcmp(name, "") != 0`, i.e. when `name` is non-empty. -/
def mkASIBase (name : String) : ASIDevice :=
  if name ≠ "" then ⟨[(g_Keyword_Name, name)]⟩ else ⟨[]⟩

/-- Function `ASIBase::GetName(pszName)`: the string copied into the caller's buffer —
the `Name` property's value when `HasProperty` holds, else "Undefined". -/
def getName (d : ASIDevice) : String :=
  if hasProperty d g_Keyword_Name then
    (d.props.lookup g_Keyword_Name).getD ""
  else
    "Undefined"

end ASITiger

namespace AcquireCam

/-- C2: for every successful poll of a stream in `readFrame`, exactly
`bytes_of_frame - sizeof(VideoFrame)` bytes of the first visible frame's
payload are copied to the front of the stream's image buffer (the rest of the
buffer is untouched), and the byte count passed to `cpx_unmap_read` is the
whole visible span `end - beg` — the headered sizes of all frames present at
poll time, not just of the frame copied. -/
theorem readFrame_copies_first_drains_span
    (hs : Nat) (img : List Byte) (polls : List Span) (f : Frame) (rest : Span)
    (hpoll : firstNonEmpty polls = some (f :: rest))
    (hfit : f.length ≤ img.length) :
    readFrame hs img polls =
      some (writeBytes img 0 f, spanBytes hs (f :: rest)) ∧
    (writeBytes img 0 f).take f.length = f ∧
    (writeBytes img 0 f).drop f.length = img.drop f.length ∧
    spanBytes hs (f :: rest) =
      (hs + f.length) + (rest.map (fun g => hs + g.length)).sum := by
  refine ⟨?_, ?_, ?_, ?_⟩
  · simp [readFrame, hpoll]
  · simp [writeBytes]
  · simp [writeBytes, List.drop_append_of_le_length, hfit]
  · simp [spanBytes]

/-- Witness for `readFrame_copies_first_drains_span`: one empty poll, then a
span holding two frames; the first frame `[1,2]` is copied, and `12` bytes
(two headered 6-byte frames) are released, more than the single frame's 6. -/
theorem readFrame_copies_first_drains_span_witness :
    readFrame 4 [9, 9, 9] [[], [[1, 2], [3, 4]]] =
      some (writeBytes [9, 9, 9] 0 [1, 2], spanBytes 4 [[1, 2], [3, 4]]) ∧
    (writeBytes [9, 9, 9] 0 [1, 2]).take 2 = [1, 2] ∧
    (writeBytes [9, 9, 9] 0 [1, 2]).drop 2 = List.drop 2 [9, 9, 9] ∧
    spanBytes 4 [[1, 2], [3, 4]] =
      (4 + 2) + (List.map (fun g => 4 + g.length) [[3, 4]]).sum := by
  exact readFrame_copies_first_drains_span 4 [9, 9, 9] [[], [[1, 2], [3, 4]]]
    [1, 2] [[3, 4]] (by decide) (by decide)

/-- C6: if the ring buffer reports an empty window on the first `K` poll
attempts and exactly one frame `f` on attempt `K+1`, `readFrame` still copies
exactly that frame's payload to the front of the buffer (no loss, no
duplication) and releases that one frame's headered size. -/
theorem readFrame_retry_correct
    (K hs : Nat) (img : List Byte) (f : Frame)
    (hfit : f.length ≤ img.length) :
    readFrame hs img (List.replicate K [] ++ [[f]]) =
      some (writeBytes img 0 f, hs + f.length) ∧
    (writeBytes img 0 f).take f.length = f ∧
    (writeBytes img 0 f).drop f.length = img.drop f.length := by
  have hfind : ∀ K, firstNonEmpty (List.replicate K [] ++ [[f]]) = some [f] := by
    intro K
    induction K with
    | zero => simp [firstNonEmpty]
    | succ n ih => simpa [firstNonEmpty] using ih
  refine ⟨?_, ?_, ?_⟩
  · simp [readFrame, hfind, spanBytes]
  · simp [writeBytes]
  · simp [writeBytes, List.drop_append_of_le_length, hfit]

/-- Witness for `readFrame_retry_correct`: three empty polls, then one frame. -/
theorem readFrame_retry_correct_witness :
    readFrame 4 [9, 9, 9] (List.replicate 3 [] ++ [[[5, 6]]]) =
      some (writeBytes [9, 9, 9] 0 [5, 6], 4 + 2) ∧
    (writeBytes [9, 9, 9] 0 [5, 6]).take 2 = [5, 6] ∧
    (writeBytes [9, 9, 9] 0 [5, 6]).drop 2 = List.drop 2 [9, 9, 9] := by
  exact readFrame_retry_correct 3 4 [9, 9, 9] [5, 6] (by decide)

/-- C7: the exposure round-trip is exact: `SetExposure e` stores
`e * 1000` microseconds and `GetExposure` recovers `e` by dividing by 1000. -/
theorem exposure_roundtrip (e : ℚ) (p : CpxProps) :
    getExposure (setExposure e p) = e ∧
    (setExposure e p).video0.exposure_time_us = e * 1000 := by
  constructor
  · simp [getExposure, setExposure]
  · rfl

/-- Overlay of a payload at offset 0: plain prefix replacement. -/
theorem writeBytes_zero (buf p : List Byte) :
    writeBytes buf 0 p = p ++ buf.drop p.length := by
  simp [writeBytes]

/-- Stacking two half-buffer payloads: writing `p0` at offset 0 and then
`p1` at offset `n / 2` of an `n`-byte buffer yields `p0 ++ p1`. -/
theorem writeBytes_stack (buf p0 p1 : List Byte) (n : Nat)
    (hbuf : buf.length = n) (hp0 : p0.length = n / 2)
    (hp1 : p1.length = n / 2) (hev : 2 ∣ n) :
    writeBytes (writeBytes buf 0 p0) (n / 2) p1 = p0 ++ p1 := by
  rw [writeBytes_zero]
  have hlen : (p0 ++ buf.drop p0.length).length = n := by
    simp [hp0, hbuf]
    omega
  have ht : (p0 ++ buf.drop p0.length).take (n / 2) = p0 := by
    rw [← hp0]
    exact List.take_left _ _
  have hd : (p0 ++ buf.drop p0.length).drop (n / 2 + p1.length) = [] := by
    apply List.drop_eq_nil_of_le
    rw [hlen, hp1]
    omega
  unfold writeBytes
  rw [ht, hd, List.append_nil]

/-- C1: in single-channel mode (`multiChannel = false`), `readFrames` writes
stream 0's payload at byte offset 0 of `imgs[0]` and stream 1's payload at
byte offset `width*height*depth/2` of that buffer, so for half-buffer-sized
payloads the buffer ends up as `p0 ++ p1`: its first half is stream 0's
payload and its second half is stream 1's payload, byte for byte. -/
theorem readFrames_single_mode_stacks
    (hs w h d : Nat) (buf p0 p1 : List Byte) (r0 r1 : Span)
    (polls0 polls1 : List Span) (t0 t1 : List Ev)
    (hpoll0 : pollLoop 0 polls0 = some (p0 :: r0, t0))
    (hpoll1 : pollLoop 1 polls1 = some (p1 :: r1, t1))
    (hbuf : buf.length = w * h * d)
    (hp0 : p0.length = w * h * d / 2)
    (hp1 : p1.length = w * h * d / 2)
    (hev : 2 ∣ w * h * d) :
    readFrames hs false [⟨w, h, d, buf⟩] polls0 polls1 =
      some ([⟨w, h, d, p0 ++ p1⟩],
        t0 ++ [Ev.copy 0 0 p0.length, Ev.unmap 0 (spanBytes hs (p0 :: r0))] ++
        t1 ++ [Ev.copy 1 (w * h * d / 2) p1.length,
               Ev.unmap 1 (spanBytes hs (p1 :: r1))]) ∧
    (p0 ++ p1).take (w * h * d / 2) = p0 ∧
    (p0 ++ p1).drop (w * h * d / 2) = p1 := by
  have hstack := writeBytes_stack buf p0 p1 (w * h * d) hbuf hp0 hp1 hev
  constructor
  · unfold readFrames
    rw [hpoll0]
    simp only [List.head?_cons, List.getD, List.get?, Option.getD_some, List.set]
    rw [hpoll1]
    simp only [List.head?_cons, List.getD, List.get?, Option.getD_some, List.set,
      if_neg (Bool.false_ne_true), Bool.false_eq_true, if_false]
    rw [hstack]
  · constructor
    · rw [← hp0]
      exact List.take_left _ _
    · rw [← hp0]
      exact List.drop_left _ _

/-- Witness for `readFrames_single_mode_stacks`: a 2×2×1 single-mode buffer
(`n = 4`, half 2) with payloads `[1,2]` and `[3,4]` stacks to `[1,2,3,4]`. -/
theorem readFrames_single_mode_stacks_witness :
    readFrames 4 false [⟨2, 2, 1, [0, 0, 0, 0]⟩] [[[1, 2]]] [[], [[3, 4]]] =
      some ([⟨2, 2, 1, [1, 2] ++ [3, 4]⟩],
        [Ev.poll 0 false] ++
          [Ev.copy 0 0 (List.length [1, 2]), Ev.unmap 0 (spanBytes 4 [[1, 2]])] ++
        [Ev.poll 1 true, Ev.poll 1 false] ++
          [Ev.copy 1 (2 * 2 * 1 / 2) (List.length [3, 4]),
           Ev.unmap 1 (spanBytes 4 [[3, 4]])]) ∧
    ([1, 2] ++ [3, 4]).take (2 * 2 * 1 / 2) = [1, 2] ∧
    ([1, 2] ++ [3, 4]).drop (2 * 2 * 1 / 2) = [3, 4] := by
  exact readFrames_single_mode_stacks 4 2 2 1 [0, 0, 0, 0] [1, 2] [3, 4] [] []
    [[[1, 2]]] [[], [[3, 4]]] [Ev.poll 0 false] [Ev.poll 1 true, Ev.poll 1 false]
    (by decide) (by decide) (by decide) (by decide) (by decide) (by decide)

/-- Splitting a readFrames-shaped trace into its stream-0 and stream-1
halves, each with exactly one copy and one unmap. -/
theorem trace_split_aux (t0 t1 : List Ev) (o0 n0 l0 o1 n1 l1 : Nat)
    (h0 : ∀ e ∈ t0, e.stream = 0) (h1 : ∀ e ∈ t1, e.stream = 1)
    (hc0 : t0.countP Ev.isCopy = 0) (hc1 : t1.countP Ev.isCopy = 0)
    (hu0 : t0.countP Ev.isUnmap = 0) (hu1 : t1.countP Ev.isUnmap = 0) :
    ∃ u0 u1,
      t0 ++ [Ev.copy 0 o0 l0, Ev.unmap 0 n0] ++ t1 ++
        [Ev.copy 1 o1 l1, Ev.unmap 1 n1] = u0 ++ u1 ∧
      (∀ e ∈ u0, e.stream = 0) ∧ (∀ e ∈ u1, e.stream = 1) ∧
      u0.countP Ev.isCopy = 1 ∧ u1.countP Ev.isCopy = 1 ∧
      u0.countP Ev.isUnmap = 1 ∧ u1.countP Ev.isUnmap = 1 := by
  refine ⟨t0 ++ [Ev.copy 0 o0 l0, Ev.unmap 0 n0],
    t1 ++ [Ev.copy 1 o1 l1, Ev.unmap 1 n1], ?_, ?_, ?_, ?_, ?_, ?_, ?_⟩
  · simp [List.append_assoc]
  · intro e he
    rcases List.mem_append.mp he with he' | he'
    · exact h0 e he'
    · rcases List.mem_cons.mp he' with rfl | he''
      · rfl
      · rcases List.mem_cons.mp he'' with rfl | he'''
        · rfl
        · simp at he'''
  · intro e he
    rcases List.mem_append.mp he with he' | he'
    · exact h1 e he'
    · rcases List.mem_cons.mp he' with rfl | he''
      · rfl
      · rcases List.mem_cons.mp he'' with rfl | he'''
        · rfl
        · simp at he'''
  · simp [List.countP_append, List.countP_cons, Ev.isCopy, hc0]
  · simp [List.countP_append, List.countP_cons, Ev.isCopy, hc1]
  · simp [List.countP_append, List.countP_cons, Ev.isUnmap, hu0]
  · simp [List.countP_append, List.countP_cons, Ev.isUnmap, hu1]

/-- The trace a poll loop produces touches only its own stream and contains
no copy and no unmap events. -/
theorem pollLoop_trace (k : Nat) (polls : List Span) (sp : Span) (t : List Ev)
    (h : pollLoop k polls = some (sp, t)) :
    (∀ e ∈ t, e.stream = k) ∧
    t.countP Ev.isCopy = 0 ∧ t.countP Ev.isUnmap = 0 := by
  induction polls generalizing t with
  | nil => simp [pollLoop] at h
  | cons s rest ih =>
    unfold pollLoop at h
    by_cases hse : s.isEmpty
    · rw [if_pos hse] at h
      rcases hp : pollLoop k rest with _ | ⟨sp', t'⟩
      · rw [hp] at h
        simp at h
      · rw [hp] at h
        simp only [Option.some.injEq, Prod.mk.injEq] at h
        obtain ⟨h1, h2⟩ := h
        subst h2
        obtain ⟨ih1, ih2, ih3⟩ := ih t' (by rw [hp, h1])
        refine ⟨?_, ?_, ?_⟩
        · intro e he
          rcases List.mem_cons.mp he with rfl | he'
          · rfl
          · exact ih1 e he'
        · simp [List.countP_cons, Ev.isCopy, ih2]
        · simp [List.countP_cons, Ev.isUnmap, ih3]
    · rw [if_neg hse] at h
      simp only [Option.some.injEq, Prod.mk.injEq] at h
      obtain ⟨h1, h2⟩ := h
      subst h2
      refine ⟨?_, by simp [List.countP_cons, Ev.isCopy],
        by simp [List.countP_cons, Ev.isUnmap]⟩
      intro e he
      rcases List.mem_cons.mp he with rfl | he'
      · rfl
      · simp at he'

/-- C4: every successful run of `readFrames` splits its interaction trace
into a stream-0 part followed by a stream-1 part — stream 0 is fully polled,
copied and unmapped before stream 1 is touched at all — and each part holds
exactly one copy (one frame acquired per stream) and exactly one unmap. -/
theorem readFrames_sequential_streams
    (hs : Nat) (mc : Bool) (imgs : List Img) (polls0 polls1 : List Span)
    (imgs' : List Img) (tr : List Ev)
    (hrun : readFrames hs mc imgs polls0 polls1 = some (imgs', tr)) :
    ∃ u0 u1, tr = u0 ++ u1 ∧
      (∀ e ∈ u0, e.stream = 0) ∧ (∀ e ∈ u1, e.stream = 1) ∧
      u0.countP Ev.isCopy = 1 ∧ u1.countP Ev.isCopy = 1 ∧
      u0.countP Ev.isUnmap = 1 ∧ u1.countP Ev.isUnmap = 1 := by
  unfold readFrames at hrun
  split at hrun
  · simp at hrun
  rename_i sp0t0 sp0 t0 heq0
  split at hrun
  · simp at hrun
  rename_i f0 hh0
  split at hrun
  · simp at hrun
  rename_i sp1t1 sp1 t1 heq1
  split at hrun
  · simp at hrun
  rename_i f1 hh1
  simp only [Option.some.injEq, Prod.mk.injEq] at hrun
  obtain ⟨-, htr⟩ := hrun
  obtain ⟨hstr0, hc0, hu0⟩ := pollLoop_trace 0 polls0 sp0 t0 heq0
  obtain ⟨hstr1, hc1, hu1⟩ := pollLoop_trace 1 polls1 sp1 t1 heq1
  subst htr
  exact trace_split_aux t0 t1 _ _ _ _ _ _ hstr0 hstr1 hc0 hc1 hu0 hu1

/-- Witness for `readFrames_sequential_streams`: a concrete multi-channel run
whose trace is one stream-0 poll/copy/unmap followed by two stream-1 polls, a
copy and an unmap. -/
theorem readFrames_sequential_streams_witness :
    ∃ u0 u1,
      ([Ev.poll 0 false, Ev.copy 0 0 1, Ev.unmap 0 5,
        Ev.poll 1 true, Ev.poll 1 false, Ev.copy 1 0 1, Ev.unmap 1 5] : List Ev) =
        u0 ++ u1 ∧
      (∀ e ∈ u0, e.stream = 0) ∧ (∀ e ∈ u1, e.stream = 1) ∧
      u0.countP Ev.isCopy = 1 ∧ u1.countP Ev.isCopy = 1 ∧
      u0.countP Ev.isUnmap = 1 ∧ u1.countP Ev.isUnmap = 1 := by
  exact readFrames_sequential_streams 4 true [⟨1, 1, 1, [0]⟩, ⟨1, 1, 1, [0]⟩]
    [[[7]]] [[], [[8]]] [⟨1, 1, 1, [7]⟩, ⟨1, 1, 1, [8]⟩]
    [Ev.poll 0 false, Ev.copy 0 0 1, Ev.unmap 0 5,
     Ev.poll 1 true, Ev.poll 1 false, Ev.copy 1 0 1, Ev.unmap 1 5]
    (by decide)

/-- C8: running `setupBuffers` twice with the mode unchanged yields buffers
of the same count and dimensions as running it once. -/
theorem setupBuffers_idempotent_shapes (s : CamState) :
    imgShapes (setupBuffers (setupBuffers s)) = imgShapes (setupBuffers s) ∧
    (setupBuffers (setupBuffers s)).imgs.length =
      (setupBuffers s).imgs.length := by
  have h : setupBuffers (setupBuffers s) = setupBuffers s := by
    unfold setupBuffers
    by_cases hd : s.demo <;> by_cases hm : s.multiChannel <;> simp [hd, hm]
  rw [h]
  exact ⟨rfl, rfl⟩

theorem Img.resize_width (w h d : Nat) : (Img.resize w h d).width = w := rfl

theorem Img.resize_height (w h d : Nat) : (Img.resize w h d).height = h := rfl

theorem Img.resize_depth (w h d : Nat) : (Img.resize w h d).depth = d := rfl

/-- C3: the demo flag read at Initialize is true (the `Demo` property is
created read-only with value 1), the first buffer setup yields two 640×480×1
buffers, and after a mode change on any demo-mode state the buffers match the
mode's contract exactly: `Multi` yields exactly 2 buffers of (640, 480),
`Single` yields exactly 1 buffer of (640, 960). -/
theorem mode_buffer_contract (s : CamState) (hdemo : s.demo = true) :
    (initCam demoPropValue).demo = true ∧
    (initCam demoPropValue).imgs.length = 2 ∧
    imgShapes (initCam demoPropValue) = [(640, 480, 1), (640, 480, 1)] ∧
    (onImageModeAfterSet g_prop_Mode_Multi s).imgs.length = 2 ∧
    imgShapes (onImageModeAfterSet g_prop_Mode_Multi s) =
      [(640, 480, 1), (640, 480, 1)] ∧
    (onImageModeAfterSet g_prop_Mode_Single s).imgs.length = 1 ∧
    imgShapes (onImageModeAfterSet g_prop_Mode_Single s) = [(640, 960, 1)] := by
  have hmm : (g_prop_Mode_Multi == g_prop_Mode_Multi) = true := by decide
  have hsm : (g_prop_Mode_Single == g_prop_Mode_Multi) = false := by decide
  refine ⟨?_, ?_, ?_, ?_, ?_, ?_, ?_⟩ <;>
    simp [initCam, onImageModeAfterSet, setupBuffers, hdemo, hmm, hsm,
      imgShapes, Img.resize_width, Img.resize_height, Img.resize_depth,
      DEMO_IMAGE_WIDTH, DEMO_IMAGE_HEIGHT, demoPropValue]

/-- Witness for `mode_buffer_contract` at a concrete demo-mode state. -/
theorem mode_buffer_contract_witness :
    (initCam demoPropValue).demo = true ∧
    (initCam demoPropValue).imgs.length = 2 ∧
    imgShapes (initCam demoPropValue) = [(640, 480, 1), (640, 480, 1)] ∧
    (onImageModeAfterSet g_prop_Mode_Multi ⟨true, false, []⟩).imgs.length = 2 ∧
    imgShapes (onImageModeAfterSet g_prop_Mode_Multi ⟨true, false, []⟩) =
      [(640, 480, 1), (640, 480, 1)] ∧
    (onImageModeAfterSet g_prop_Mode_Single ⟨true, false, []⟩).imgs.length = 1 ∧
    imgShapes (onImageModeAfterSet g_prop_Mode_Single ⟨true, false, []⟩) =
      [(640, 960, 1)] := by
  exact mode_buffer_contract ⟨true, false, []⟩ rfl

/-- C5: `SnapImage` returns the distinct `ERR_CPX_CONFIURE_FAILED` code
before starting or reading when `cpx_configure` fails; throws a C++ exception
(instead of returning an error code) when `cpx_start` fails, still before any
read; and when both succeed it runs `readFrames`, calls `cpx_stop`
unconditionally afterwards, and returns `DEVICE_OK` whatever the read's
result was. -/
theorem snapImage_failure_semantics (cfgRet startRet readRet : Int) :
    (cfgRet ≠ CpxStatus_Ok →
      snapImage cfgRet startRet readRet =
        (⟨false, false⟩, SnapResult.ret ERR_CPX_CONFIURE_FAILED) ∧
      ERR_CPX_CONFIURE_FAILED ≠ DEVICE_OK) ∧
    (cfgRet = CpxStatus_Ok → startRet ≠ CpxStatus_Ok →
      snapImage cfgRet startRet readRet =
        (⟨false, false⟩, SnapResult.thrown "cpx_start failed")) ∧
    (cfgRet = CpxStatus_Ok → startRet = CpxStatus_Ok →
      snapImage cfgRet startRet readRet =
        (⟨true, true⟩, SnapResult.ret DEVICE_OK)) := by
  refine ⟨fun hc => ⟨by simp [snapImage, hc], by decide⟩,
    fun hc hst => by simp [snapImage, hc, hst],
    fun hc hst => by simp [snapImage, hc, hst]⟩

/-- Witness for `snapImage_failure_semantics`: the three paths at concrete
status codes; the success path's result is the same for two different read
results. -/
theorem snapImage_failure_semantics_witness :
    (snapImage 1 0 0 = (⟨false, false⟩, SnapResult.ret ERR_CPX_CONFIURE_FAILED) ∧
      ERR_CPX_CONFIURE_FAILED ≠ DEVICE_OK) ∧
    snapImage 0 1 0 = (⟨false, false⟩, SnapResult.thrown "cpx_start failed") ∧
    snapImage 0 0 7 = (⟨true, true⟩, SnapResult.ret DEVICE_OK) ∧
    snapImage 0 0 9 = (⟨true, true⟩, SnapResult.ret DEVICE_OK) := by
  exact ⟨(snapImage_failure_semantics 1 0 0).1 (by decide),
    (snapImage_failure_semantics 0 1 0).2.1 rfl (by decide),
    (snapImage_failure_semantics 0 0 7).2.2 rfl rfl,
    (snapImage_failure_semantics 0 0 9).2.2 rfl rfl⟩

/-- With at least one and fewer than `2^64` buffers, the `size_t` expression
`imgs.size() - 1` is the plain `length - 1`. -/
theorem sizeMinusOne_eq (n : Nat) (h1 : 1 ≤ n) (h2 : n < 2 ^ 64) :
    sizeMinusOne n = n - 1 := by
  unfold sizeMinusOne
  have he : n + (2 ^ 64 - 1) = (n - 1) + 2 ^ 64 := by omega
  rw [he, Nat.add_mod_right, Nat.mod_eq_of_lt (by omega)]

/-- C9: whenever at least one image buffer exists, the per-channel accessors
reject every channel index at or past the buffer count — `GetImageBuffer`
returns null and `GetChannelName` returns `DEVICE_NONEXISTENT_CHANNEL`
without writing the name — while every in-range index yields that buffer's
pixels and `DEVICE_OK` with a name written. -/
theorem channel_accessors_bounds (s : CamState) (c : Nat)
    (hne : 1 ≤ s.imgs.length) (hsz : s.imgs.length < 2 ^ 64) :
    (s.imgs.length ≤ c →
      getImageBufferCh s c = none ∧
      getChannelName s c = (DEVICE_NONEXISTENT_CHANNEL, none)) ∧
    (c < s.imgs.length →
      (∃ i, s.imgs.get? c = some i ∧ getImageBufferCh s c = some i.pix) ∧
      (getChannelName s c).1 = DEVICE_OK ∧ (getChannelName s c).2 ≠ none) := by
  have hm : sizeMinusOne s.imgs.length = s.imgs.length - 1 :=
    sizeMinusOne_eq _ hne hsz
  constructor
  · intro hge
    have hgt : c > sizeMinusOne s.imgs.length := by omega
    exact ⟨by simp [getImageBufferCh, hgt], by simp [getChannelName, hgt]⟩
  · intro hlt
    have hngt : ¬ c > sizeMinusOne s.imgs.length := by omega
    have hi : s.imgs.get? c = some (s.imgs.get ⟨c, hlt⟩) := List.get?_eq_get hlt
    refine ⟨⟨s.imgs.get ⟨c, hlt⟩, hi,
      by simp only [getImageBufferCh, if_neg hngt, hi, Option.map_some']⟩, ?_, ?_⟩
    · simp [getChannelName, hngt]
    · simp [getChannelName, hngt]

/-- Witness for `channel_accessors_bounds`: a one-buffer state rejects
channel 1 and serves channel 0. -/
theorem channel_accessors_bounds_witness :
    (getImageBufferCh ⟨true, false, [⟨1, 1, 1, [5]⟩]⟩ 1 = none ∧
      getChannelName ⟨true, false, [⟨1, 1, 1, [5]⟩]⟩ 1 =
        (DEVICE_NONEXISTENT_CHANNEL, none)) ∧
    (∃ i, ([⟨1, 1, 1, [5]⟩] : List Img).get? 0 = some i ∧
      getImageBufferCh ⟨true, false, [⟨1, 1, 1, [5]⟩]⟩ 0 = some i.pix) ∧
    (getChannelName ⟨true, false, [⟨1, 1, 1, [5]⟩]⟩ 0).1 = DEVICE_OK ∧
    (getChannelName ⟨true, false, [⟨1, 1, 1, [5]⟩]⟩ 0).2 ≠ none := by
  exact ⟨(channel_accessors_bounds ⟨true, false, [⟨1, 1, 1, [5]⟩]⟩ 1
      (by decide) (by norm_num)).1 (by decide),
    (channel_accessors_bounds ⟨true, false, [⟨1, 1, 1, [5]⟩]⟩ 0
      (by decide) (by norm_num)).2 (by decide)⟩

end AcquireCam

namespace ASITiger

/-- C10: `ASIBase::GetName` copies the `Name` property's value when the
property exists and copies "Undefined" otherwise; constructing an `ASIBase`
with the empty string skips creating the `Name` property, so `GetName` on
such a device yields "Undefined", while a non-empty constructor name is
recovered verbatim. -/
theorem getName_spec (name : String) (d : ASIDevice) :
    (hasProperty d g_Keyword_Name = true →
      ∃ v, d.props.lookup g_Keyword_Name = some v ∧ getName d = v) ∧
    (hasProperty d g_Keyword_Name = false → getName d = "Undefined") ∧
    (name ≠ "" → getName (mkASIBase name) = name) ∧
    (mkASIBase "").props = [] ∧
    getName (mkASIBase "") = "Undefined" := by
  refine ⟨?_, ?_, ?_, by decide, by decide⟩
  · intro hhas
    rcases hl : d.props.lookup g_Keyword_Name with _ | v
    · exact absurd hhas (by simp [hasProperty, hl])
    · exact ⟨v, rfl, by simp [getName, hasProperty, hl]⟩
  · intro hnot
    simp [getName, hnot]
  · intro hne
    have hmk : mkASIBase name = ⟨[(g_Keyword_Name, name)]⟩ := by
      simp [mkASIBase, hne]
    simp [getName, hasProperty, hmk, List.lookup]

/-- Witness for `getName_spec`: a device named "TigerComm" has the `Name`
property and `GetName` recovers "TigerComm"; the empty-named device has no
properties and yields "Undefined". -/
theorem getName_spec_witness :
    (∃ v, (mkASIBase "TigerComm").props.lookup g_Keyword_Name = some v ∧
      getName (mkASIBase "TigerComm") = v) ∧
    getName (mkASIBase "TigerComm") = "TigerComm" ∧
    (mkASIBase "").props = [] ∧
    getName (mkASIBase "") = "Undefined" := by
  exact ⟨(getName_spec "TigerComm" (mkASIBase "TigerComm")).1 (by decide),
    (getName_spec "TigerComm" (mkASIBase "TigerComm")).2.2.1 (by decide),
    (getName_spec "TigerComm" (mkASIBase "TigerComm")).2.2.2.1,
    (getName_spec "TigerComm" (mkASIBase "TigerComm")).2.2.2.2⟩

end ASITiger
